import Mathlib

/-!
Verification of the BinSniff batch orchestrator (`tools/miner.py`).

The miner script iterates an input corpus, spawns one worker process per
artifact to run the analyzer, bounds the wait with an optional timeout,
and records failures in an append-only ledger (`errors.txt`).  This file
gives a shallow embedding of that driver loop: the mutable module-level
state (error vault, counters, KILL flag) and the filesystem effects the
loop performs (directory creation, artifact copy, marker file, ledger
append) are threaded through an explicit state record, and the behavior
of one worker process is an explicit datum.  Nontermination (a join or a
channel receive that blocks forever) is modelled by `Option`: a run that
would hang returns `none`.
-/

/-- Python substring containment: `needle in hay` for strings. -/
def pyIn (needle hay : String) : Bool :=
  decide (needle.data <:+: hay.data)

/-- Embeds `check_if_errored` (miner.py lines 85-90): returns true iff the
queried file name occurs as a substring of some stored ledger line. -/
def check_if_errored (errors : List String) (file : String) : Bool :=
  errors.any (fun error => pyIn file error)

/-- Embeds the ledger load (miner.py lines 94-96): iterating an open text
file in Python yields each line with its trailing newline kept. -/
def loadLedger (lines : List String) : List String :=
  lines.map (fun l => l ++ "\n")

/-- Command-line arguments of the miner that steer the driver loop.
`discard` is the `--discard` quarantine flag (miner.py line 42);
`timeout` is the `--time` value parsed to an integer when given
(lines 71-73).
The hardcode dictionary and the only-static flag are passed through to
the analyzer and never branch the loop, so they are omitted here. -/
structure Args where
  discard : Bool
  timeout : Option Nat
deriving DecidableEq

/-- Python truthiness of the `timeout` value as used at miner.py line 185
(`if timeout:`): `None` and `0` are falsy, any other integer is truthy. -/
def pyTruthy : Option Nat → Bool
  | none => false
  | some n => n != 0

/-- Observable behavior of one spawned worker process, as the parent sees
it: whether a KeyboardInterrupt hits the parent while it waits, when (if
ever) the worker exits on its own, its exit status, and the message (if
any) it sent on the pipe before exiting. -/
structure WorkerSpec where
  interrupt : Bool
  exitsAt : Option Nat
  exitcode : Int
  msg : Option (Bool × Option (List String))
deriving DecidableEq

/-- State threaded through the driver loop: the in-memory error vault,
the lines appended to `errors.txt` during this run, the filesystem
pieces the loop touches (destination directories, artifact copies,
`keys.txt` marker files with their contents), the two counters, the
KILL flag together with whether the loop has broken out, and a count of
worker spawns. -/
structure MState where
  errorvault : List String
  errorsTxt : List String
  dirs : List String
  copies : List String
  markers : List (String × List String)
  wrong : Nat
  done : Nat
  kill : Bool
  stopped : Bool
  spawns : Nat
deriving DecidableEq

/-- State at the start of the run (miner.py lines 92-101 and 127-128):
the error vault is loaded from `errors.txt` only under `--discard`
(keeping trailing newlines), counters start at zero, and the initial
filesystem content (directories, copies, markers left by earlier runs)
is given. -/
def initState (args : Args) (ledgerFile : Option (List String))
    (dirs copies : List String) (markers : List (String × List String)) : MState :=
  { errorvault := if args.discard then loadLedger (ledgerFile.getD []) else []
    errorsTxt := []
    dirs := dirs
    copies := copies
    markers := markers
    wrong := 0
    done := 0
    kill := false
    stopped := false
    spawns := 0 }

/-- Marker-file test `os.path.isfile(f"{current_output}/keys.txt")`
(miner.py line 151). -/
def hasMarker (st : MState) (file : String) : Bool :=
  st.markers.any (fun p => p.1 == file)

/-- Effect of `shutil.rmtree(current_output)`: the destination directory
and everything inside it (artifact copy, marker file) disappear. -/
def rmtree (st : MState) (file : String) : MState :=
  { st with
    dirs := st.dirs.filter (fun d => d != file)
    copies := st.copies.filter (fun c => c != file)
    markers := st.markers.filter (fun p => p.1 != file) }

/-- Shared tail of every failure handler: delete the destination
directory, append the bare file name to the in-memory vault, and append
one line to `errors.txt`. -/
def failureRecord (st : MState) (file line : String) : MState :=
  let st1 := rmtree st file
  { st1 with
    errorvault := st1.errorvault ++ [file]
    errorsTxt := st1.errorsTxt ++ [line] }

/-- The `except TimeoutError` handler (miner.py lines 222-231): counter,
rmtree, vault append, and the ledger line tagged "Timeout error",
unconditionally (no discard check). -/
def timeoutHandler (st : MState) (file : String) : MState :=
  failureRecord { st with wrong := st.wrong + 1 } file ("Timeout error: " ++ file)

/-- The `except KeyboardInterrupt` handler (miner.py lines 233-250):
counter, rmtree, vault append, and the ledger line tagged "Jumped",
unconditionally. -/
def interruptHandler (st : MState) (file : String) : MState :=
  failureRecord { st with wrong := st.wrong + 1 } file ("Jumped: " ++ file)

/-- The generic `except Exception` handler (miner.py lines 252-261).
The ledger line embeds the exception text, abstracted here to its tag. -/
def especialHandler (st : MState) (file : String) : MState :=
  failureRecord { st with wrong := st.wrong + 1 } file ("Especial error: " ++ file)

/-- The `if error:` branch (miner.py lines 203-213): the failure counter
always bumps, but vault append, rmtree and the ledger write (a bare
file-name line) happen only under `--discard`. -/
def errorBranch (args : Args) (st : MState) (file : String) : MState :=
  let st1 := { st with wrong := st.wrong + 1 }
  if args.discard then failureRecord st1 file file else st1

/-- Lazy directory creation (miner.py lines 147-149): the destination
directory is created when absent, left alone when present. -/
def ensureDir (st : MState) (file : String) : MState :=
  { st with dirs := if st.dirs.contains file then st.dirs else st.dirs ++ [file] }

/-- Conditional artifact copy (miner.py lines 164-165): the artifact is
copied into its destination directory when not already there. -/
def ensureCopy (st : MState) (file : String) : MState :=
  { st with copies := if st.copies.contains file then st.copies else st.copies ++ [file] }

/-- State changes performed between the marker check and the wait on the
worker: copy the artifact if absent and spawn one worker process
(miner.py lines 163-182). -/
def preJob (st : MState) (file : String) : MState :=
  let st1 := ensureCopy st file
  { st1 with spawns := st1.spawns + 1 }

/-- Result of the bounded wait on the worker (miner.py lines 184-194):
`join(timeout + 3)` when the timeout is truthy, a plain blocking
`join()` otherwise; a worker still alive after the bounded wait is
terminated. -/
inductive WaitResult where
  | naturalExit : WaitResult
  | forcedKill : Nat → WaitResult
  | blocksForever : WaitResult
deriving DecidableEq

/-- Embeds the join/terminate logic (miner.py lines 184-194) over the
time at which the worker would exit on its own (`none` = never). -/
def supervise (timeout : Option Nat) (exitsAt : Option Nat) : WaitResult :=
  if pyTruthy timeout then
    let limit := timeout.getD 0 + 3
    match exitsAt with
    | some e => if e ≤ limit then .naturalExit else .forcedKill limit
    | none => .forcedKill limit
  else
    match exitsAt with
    | some _ => .naturalExit
    | none => .blocksForever

/-- How one loop iteration resolved, following the branch structure of
miner.py lines 136-261; the names follow the outcome taxonomy used for
the spec of the orchestrator. -/
inductive IterResult where
  | skippedErrored : IterResult
  | skippedDone : IterResult
  | completedOk : List String → IterResult
  | analysisFailed : IterResult
  | workerCrashed : IterResult
  | workerTimedOut : IterResult
  | runInterrupted : IterResult
  | especialError : IterResult
deriving DecidableEq

/-- One iteration of the driver loop body (miner.py lines 136-261),
after the KILL check: the discard/errored skip, lazy directory
creation, the marker skip, copy + spawn, the bounded wait, and outcome
classification.  Returns `none` when the iteration blocks forever
(untruthy timeout with a worker that never exits, or a zero exit status
with no pipe message, in which case `recv()` never returns because the
parent keeps its own copy of the write end open). -/
def processFile (args : Args) (spec : WorkerSpec) (st : MState) (file : String) :
    Option (MState × IterResult) :=
  if args.discard && check_if_errored st.errorvault file then
    some ({ st with wrong := st.wrong + 1 }, .skippedErrored)
  else
    let std := ensureDir st file
    if hasMarker std file then
      some ({ std with done := std.done + 1 }, .skippedDone)
    else
      let stJ := preJob std file
      if spec.interrupt then
        some (interruptHandler stJ file, .runInterrupted)
      else
        match supervise args.timeout spec.exitsAt with
        | .blocksForever => none
        | .forcedKill _ => some (timeoutHandler stJ file, .workerTimedOut)
        | .naturalExit =>
          if spec.exitcode == 0 then
            match spec.msg with
            | none => none
            | some (e, ks) =>
              if e then some (errorBranch args stJ file, .analysisFailed)
              else
                match ks with
                | some l =>
                  some ({ stJ with
                            markers := stJ.markers ++ [(file, l)]
                            done := stJ.done + 1 }, .completedOk l)
                | none => some (especialHandler stJ file, .especialError)
          else
            some (errorBranch args stJ file, .workerCrashed)

/-- Per-file environment of one run: how the worker spawned for this
file behaves, and whether a SIGQUIT arrives while this file is being
processed (handle_signal, miner.py lines 21-26, only sets the KILL
flag; it is honored at the next top-of-loop check, line 133). -/
structure FileEnv where
  worker : WorkerSpec
  sigquit : Bool

/-- One step of the `for file in os.listdir(...)` loop: honor a break
already taken, check the KILL flag at the top (miner.py line 133),
otherwise run the body; a SIGQUIT delivered during the body sets the
KILL flag after the body has fully run. -/
def driverStep (args : Args) (env : String → FileEnv) (acc : Option MState)
    (file : String) : Option MState :=
  match acc with
  | none => none
  | some st =>
    if st.stopped then some st
    else if st.kill then some { st with stopped := true }
    else
      match processFile args (env file).worker st file with
      | none => none
      | some (st1, _) => some { st1 with kill := st1.kill || (env file).sigquit }

/-- The whole driver loop over the enumerated corpus. -/
def driverRun (args : Args) (env : String → FileEnv) (files : List String)
    (init : MState) : Option MState :=
  files.foldl (driverStep args env) (some init)

/-- What the analyzer call inside the worker does: either `dump_json`
returns with an error flag and `list_features` returns the key list, or
some call in the `try` block raises. -/
inductive AnalyzerBehavior where
  | returns : Bool → List String → AnalyzerBehavior
  | raises : AnalyzerBehavior
deriving DecidableEq

/-- Embeds the worker target `sniffing` (miner.py lines 106-125): on a
normal analyzer return it sends `(error, keys)` and returns 0; on a
caught exception it sends `(True, None)` and returns 1.  The first
component is the pipe message, the second the Python return value. -/
def sniffing : AnalyzerBehavior → (Bool × Option (List String)) × Int
  | .returns e ks => ((e, some ks), 0)
  | .raises => ((true, none), 1)

/-- Worker process observed by the parent when the target `sniffing`
runs to a normal return at time `e`: multiprocessing reports exit
status 0 whenever the target returns (its return value is not the exit
status), and the pipe carries the message `sniffing` sent. -/
def spawnWorker (ab : AnalyzerBehavior) (e : Nat) : WorkerSpec :=
  { interrupt := false
    exitsAt := some e
    exitcode := 0
    msg := some (sniffing ab).1 }

/-- Arguments for the claim C2 counterexample run: quarantine mode off,
a one-unit timeout budget. -/
def argsC2 : Args := { discard := false, timeout := some 1 }

/-- Environment for the claim C2 counterexample run: every worker hangs
forever and no SIGQUIT arrives. -/
def envC2 : String → FileEnv :=
  fun _ =>
    { worker := { interrupt := false, exitsAt := none, exitcode := 0, msg := none }
      sigquit := false }

/-- Arguments for the claim C2 witness: quarantine mode on, no timeout. -/
def argsC2w : Args := { discard := true, timeout := none }

/-- Worker for the claim C2 witness: exits at once with status 1 and no
pipe message. -/
def specC2w : WorkerSpec :=
  { interrupt := false, exitsAt := some 0, exitcode := 1, msg := none }

/-- Start state for the claim C2 witness. -/
def stC2w : MState := initState argsC2w none [] [] []

/-- State after the claim C2 witness iteration, as the code computes it:
spawn counted, directory created then rolled back, bare file-name
ledger line appended. -/
def stC2w' : MState :=
  { errorvault := ["a"]
    errorsTxt := ["a"]
    dirs := []
    copies := []
    markers := []
    wrong := 1
    done := 0
    kill := false
    stopped := false
    spawns := 1 }

/-- A worker that hangs forever: never exits on its own. -/
def hangSpec : WorkerSpec :=
  { interrupt := false, exitsAt := none, exitcode := 0, msg := none }

/-- A worker that completes at once with the key list ["k"]. -/
def okSpec : WorkerSpec :=
  { interrupt := false, exitsAt := some 0, exitcode := 0, msg := some (false, some ["k"]) }

/-- A wait on the worker that is hit by a KeyboardInterrupt. -/
def intrSpec : WorkerSpec :=
  { interrupt := true, exitsAt := some 0, exitcode := 0, msg := none }

/-- Arguments for the claim C3 counterexample run: quarantine mode off,
a one-unit timeout budget. -/
def argsC3 : Args := { discard := false, timeout := some 1 }

/-- Environment for the claim C3 counterexample run: the worker for
file "ab" hangs, every other worker completes; no SIGQUIT. -/
def envC3 : String → FileEnv := fun f =>
  if f = "ab" then { worker := hangSpec, sigquit := false }
  else { worker := okSpec, sigquit := false }

/-- Arguments for the claim C3 witness: quarantine mode on. -/
def argsC3w : Args := { discard := true, timeout := none }

/-- Start state for the claim C3 witness: the vault already holds the
entry "ab", of which the queried file "a" is a substring. -/
def stC3w : MState :=
  { errorvault := ["ab"]
    errorsTxt := []
    dirs := []
    copies := []
    markers := []
    wrong := 0
    done := 0
    kill := false
    stopped := false
    spawns := 0 }

/-- Arguments for the claim C4 witness. -/
def argsC4 : Args := { discard := false, timeout := none }

/-- Start state for the claim C4 witness. -/
def stC4 : MState := initState argsC4 none [] [] []

/-- Claim C4 witness worker: exits on its own with status 2 while a
pipe message is present. -/
def specC4a : WorkerSpec :=
  { interrupt := false, exitsAt := some 0, exitcode := 2, msg := some (true, some ["x"]) }

/-- Claim C4 witness worker: exits with status 0, channel yields
(true, absent). -/
def specC4b : WorkerSpec :=
  { interrupt := false, exitsAt := some 0, exitcode := 0, msg := some (true, none) }

/-- Claim C4 witness worker: exits with status 0, channel yields
(false, keys). -/
def specC4c : WorkerSpec :=
  { interrupt := false, exitsAt := some 0, exitcode := 0, msg := some (false, some ["k1", "k2"]) }

/-- Arguments for the claim C5 witness: quarantine on, five-unit
timeout budget. -/
def argsC5 : Args := { discard := true, timeout := some 5 }

/-- Start state for the claim C5 witness. -/
def stC5 : MState := initState argsC5 none [] [] []

/-- Arguments for the claim C6 counterexample: a present timeout budget
of zero. -/
def argsC6 : Args := { discard := true, timeout := some 0 }

/-- Arguments for the claim C6 witness: a present nonzero timeout
budget of two units. -/
def argsC6w : Args := { discard := false, timeout := some 2 }

/-- Start state for the claim C6 witness. -/
def stC6w : MState := initState argsC6w none [] [] []

/-- Arguments for the claim C7 witness. -/
def argsC7 : Args := { discard := false, timeout := none }

/-- Start state for the claim C7 witness. -/
def stC7 : MState := initState argsC7 none [] [] []

/-- Claim C7 witness environment: the wait on file "a" is interrupted,
everything else completes; no SIGQUIT ever arrives. -/
def envC7a : String → FileEnv := fun f =>
  if f = "a" then { worker := intrSpec, sigquit := false }
  else { worker := okSpec, sigquit := false }

/-- Claim C7 witness environment: all workers complete, no SIGQUIT. -/
def envC7b : String → FileEnv := fun _ => { worker := okSpec, sigquit := false }

/-- Claim C7 witness environment: all workers complete and a SIGQUIT
arrives during every iteration. -/
def envC7c : String → FileEnv := fun _ => { worker := okSpec, sigquit := true }

/-- Claim C7 witness state with the KILL flag already set. -/
def stC7k : MState :=
  { errorvault := []
    errorsTxt := []
    dirs := []
    copies := []
    markers := []
    wrong := 3
    done := 4
    kill := true
    stopped := false
    spawns := 7 }

/-- Claim C7 witness: state after the interrupted job on "a" and the
completed job on "b". -/
def stC7b : MState :=
  { errorvault := ["a"]
    errorsTxt := ["Jumped: a"]
    dirs := ["b"]
    copies := ["b"]
    markers := [("b", ["k"])]
    wrong := 1
    done := 1
    kill := false
    stopped := false
    spawns := 2 }

/-- Claim C7 witness: state after the completed job on "a" alone. -/
def stC7a : MState :=
  { errorvault := []
    errorsTxt := []
    dirs := ["a"]
    copies := ["a"]
    markers := [("a", ["k"])]
    wrong := 0
    done := 1
    kill := false
    stopped := false
    spawns := 1 }

/-- Arguments for the claim C8 counterexample: quarantine mode on. -/
def argsC8 : Args := { discard := true, timeout := none }

/-- Environment for the claim C8 counterexample: completing workers, no
SIGQUIT (no worker is ever spawned in that run anyway). -/
def envC8 : String → FileEnv := fun _ => { worker := okSpec, sigquit := false }

/-- Start state for the claim C8 counterexample: artifact "ample"
already has its destination directory, its copy and its marker file,
and the ledger file holds the line "Timeout error: sample.exe", of
which "ample" is a substring. -/
def stC8 : MState :=
  initState argsC8 (some ["Timeout error: sample.exe"]) ["ample"] ["ample"] [("ample", ["k"])]

/-- Final state of the claim C8 counterexample run, as the code
computes it: "ample" skipped at the ledger check, failure counter 1,
success counter 0, nothing spawned or copied. -/
def stC8r : MState :=
  { errorvault := ["Timeout error: sample.exe\n"]
    errorsTxt := []
    dirs := ["ample"]
    copies := ["ample"]
    markers := [("ample", ["k"])]
    wrong := 1
    done := 0
    kill := false
    stopped := false
    spawns := 0 }

/-- Arguments for the claim C8 witness: quarantine mode off. -/
def argsC8w : Args := { discard := false, timeout := none }

/-- Start state for the claim C8 witness: both artifacts already done. -/
def stC8w : MState :=
  initState argsC8w none ["x", "y"] ["x", "y"] [("x", ["a"]), ("y", ["b"])]

/-- Environment for the claim C8 witness: completing workers, no
SIGQUIT. -/
def envC8w : String → FileEnv := fun _ => { worker := okSpec, sigquit := false }

/-- Arguments for the claim C9 witness. -/
def argsC9 : Args := { discard := false, timeout := none }

/-- Start state for the claim C9 witness. -/
def stC9 : MState := initState argsC9 none [] [] []

/-- Claim C9 witness: state after the completed job on "a". -/
def stC9' : MState :=
  { errorvault := []
    errorsTxt := []
    dirs := ["a"]
    copies := ["a"]
    markers := [("a", ["k"])]
    wrong := 0
    done := 1
    kill := false
    stopped := false
    spawns := 1 }

/-- Final state of the claim C3 counterexample run, as the code
computes it: "ab" timed out (vault entry, ledger line, rollback), then
"a" — a substring of the vault entry "ab" — was still processed to
completion because quarantine mode is off. -/
def stC3r : MState :=
  { errorvault := ["ab"]
    errorsTxt := ["Timeout error: ab"]
    dirs := ["a"]
    copies := ["a"]
    markers := [("a", ["k"])]
    wrong := 1
    done := 1
    kill := false
    stopped := false
    spawns := 2 }

/-- Exit status of the Python call `sys.exit()` with no argument:
`SystemExit(None)` terminates the process with status 0. -/
def sysExitNoArg : Nat := 0

/-- Embeds the setup validation of miner.py lines 75-101: when a
hardcode file is given and loading it fails, the script logs and calls
`sys.exit()` (line 81); when the output folder does not exist, the
script logs and calls `sys.exit()` (line 101); otherwise setup
proceeds into the loop.  Returns the process exit status when setup
aborts, `none` when the run proceeds. -/
def setup (hardGiven hardLoadFails outputExists : Bool) : Option Nat :=
  if hardGiven && hardLoadFails then some sysExitNoArg
  else if !outputExists then some sysExitNoArg
  else none

/-- Claim C1 (corrected): the spec asserts that with the ledger holding
exactly the line "Timeout error: sample1.exe", querying "sample10.exe"
is known-bad.  `check_if_errored` tests whether the queried name is a
substring of the stored line, and "sample10.exe" is not a substring of
"Timeout error: sample1.exe", so the query answers false. -/
theorem C1_counterexample :
    ¬ (check_if_errored (loadLedger ["Timeout error: sample1.exe"]) "sample10.exe" = true) := by
  decide

/-- Claim C1 (amended): ledger membership is decided by substring
containment of the queried artifact identifier in each stored ledger
line; with the ledger containing exactly the line
"Timeout error: sample1.exe", querying "sample1.exe" yields known-bad =
true, while querying "sample10.exe" yields known-bad = false. -/
theorem C1_theorem :
    (∀ errors file, check_if_errored errors file = true ↔
      ∃ e ∈ errors, file.data <:+: e.data) ∧
    check_if_errored (loadLedger ["Timeout error: sample1.exe"]) "sample1.exe" = true ∧
    check_if_errored (loadLedger ["Timeout error: sample1.exe"]) "sample10.exe" = false := by
  refine ⟨?_, by decide, by decide⟩
  intro errors file
  simp [check_if_errored, pyIn, List.any_eq_true]


/-- Inversion principle for one loop iteration: a body that finishes
does so through exactly one of the eight branches of miner.py lines
136-261, with the state update and classification of that branch. -/
theorem processFile_inv (args : Args) (spec : WorkerSpec) (st st' : MState) (file : String)
    (r : IterResult) (h : processFile args spec st file = some (st', r)) :
    ((args.discard && check_if_errored st.errorvault file) = true ∧
      st' = { st with wrong := st.wrong + 1 } ∧ r = .skippedErrored) ∨
    ((args.discard && check_if_errored st.errorvault file) = false ∧
      hasMarker st file = true ∧
      st' = { ensureDir st file with done := st.done + 1 } ∧ r = .skippedDone) ∨
    ((args.discard && check_if_errored st.errorvault file) = false ∧
      hasMarker st file = false ∧
      ((spec.interrupt = true ∧
        st' = interruptHandler (preJob (ensureDir st file) file) file ∧
        r = .runInterrupted) ∨
      (spec.interrupt = false ∧
        (∃ w, supervise args.timeout spec.exitsAt = .forcedKill w) ∧
        st' = timeoutHandler (preJob (ensureDir st file) file) file ∧
        r = .workerTimedOut) ∨
      (spec.interrupt = false ∧
        supervise args.timeout spec.exitsAt = .naturalExit ∧
        (spec.exitcode == 0) = false ∧
        st' = errorBranch args (preJob (ensureDir st file) file) file ∧
        r = .workerCrashed) ∨
      (spec.interrupt = false ∧
        supervise args.timeout spec.exitsAt = .naturalExit ∧
        (spec.exitcode == 0) = true ∧
        (∃ ks, spec.msg = some (true, ks)) ∧
        st' = errorBranch args (preJob (ensureDir st file) file) file ∧
        r = .analysisFailed) ∨
      (spec.interrupt = false ∧
        supervise args.timeout spec.exitsAt = .naturalExit ∧
        (spec.exitcode == 0) = true ∧
        (∃ l, spec.msg = some (false, some l) ∧
          st' = { preJob (ensureDir st file) file with
                    markers := (preJob (ensureDir st file) file).markers ++ [(file, l)]
                    done := (preJob (ensureDir st file) file).done + 1 } ∧
          r = .completedOk l)) ∨
      (spec.interrupt = false ∧
        supervise args.timeout spec.exitsAt = .naturalExit ∧
        (spec.exitcode == 0) = true ∧
        spec.msg = some (false, none) ∧
        st' = especialHandler (preJob (ensureDir st file) file) file ∧
        r = .especialError))) := by
  by_cases h1 : (args.discard && check_if_errored st.errorvault file) = true
  · simp only [processFile, h1, if_true, Option.some.injEq, Prod.mk.injEq] at h
    exact Or.inl ⟨h1, h.1.symm, h.2.symm⟩
  · have h1' : (args.discard && check_if_errored st.errorvault file) = false :=
      Bool.eq_false_iff.mpr h1
    by_cases h2 : hasMarker (ensureDir st file) file = true
    · simp only [processFile, h1', Bool.false_eq_true, if_false, h2, if_true,
        Option.some.injEq, Prod.mk.injEq] at h
      refine Or.inr (Or.inl ⟨h1', ?_, h.1.symm, h.2.symm⟩)
      simpa [hasMarker, ensureDir] using h2
    · have h2' : hasMarker (ensureDir st file) file = false := by
        simp at h2; exact h2
      have h2s : hasMarker st file = false := by
        simpa [hasMarker, ensureDir] using h2'
      refine Or.inr (Or.inr ⟨h1', h2s, ?_⟩)
      simp only [processFile, h1', Bool.false_eq_true, if_false, h2', if_true] at h
      by_cases h3 : spec.interrupt = true
      · rw [if_pos h3] at h
        simp only [Option.some.injEq, Prod.mk.injEq] at h
        exact Or.inl ⟨h3, h.1.symm, h.2.symm⟩
      · have h3' : spec.interrupt = false := by simp at h3; exact h3
        rw [if_neg (by simp [h3'])] at h
        cases hsup : supervise args.timeout spec.exitsAt with
        | blocksForever => simp [hsup] at h
        | forcedKill w =>
          simp only [hsup, Option.some.injEq, Prod.mk.injEq] at h
          exact Or.inr (Or.inl ⟨h3', ⟨w, rfl⟩, h.1.symm, h.2.symm⟩)
        | naturalExit =>
          simp only [hsup] at h
          by_cases h4 : (spec.exitcode == 0) = true
          · rw [if_pos h4] at h
            cases hm : spec.msg with
            | none => simp [hm] at h
            | some p =>
              obtain ⟨e, ks⟩ := p
              cases e with
              | true =>
                simp only [hm, if_true, Option.some.injEq, Prod.mk.injEq] at h
                exact Or.inr (Or.inr (Or.inr (Or.inl
                  ⟨h3', rfl, h4, ⟨ks, rfl⟩, h.1.symm, h.2.symm⟩)))
              | false =>
                cases ks with
                | some l =>
                  simp only [hm, Bool.false_eq_true, if_false, Option.some.injEq,
                    Prod.mk.injEq] at h
                  exact Or.inr (Or.inr (Or.inr (Or.inr (Or.inl
                    ⟨h3', rfl, h4, ⟨l, rfl, h.1.symm, h.2.symm⟩⟩))))
                | none =>
                  simp only [hm, Bool.false_eq_true, if_false, Option.some.injEq,
                    Prod.mk.injEq] at h
                  exact Or.inr (Or.inr (Or.inr (Or.inr (Or.inr
                    ⟨h3', rfl, h4, rfl, h.1.symm, h.2.symm⟩))))
          · have h4' : (spec.exitcode == 0) = false := by simp at h4; simp [h4]
            rw [if_neg (by simp [h4'])] at h
            simp only [Option.some.injEq, Prod.mk.injEq] at h
            exact Or.inr (Or.inr (Or.inl ⟨h3', rfl, h4', h.1.symm, h.2.symm⟩))

/-- Every branch of the loop body leaves the stop bookkeeping alone: the
body never sets the KILL flag nor breaks out of the loop by itself. -/
theorem processFile_stopped_kill (args : Args) (spec : WorkerSpec) (st st' : MState)
    (file : String) (r : IterResult)
    (h : processFile args spec st file = some (st', r)) :
    st'.stopped = st.stopped ∧ st'.kill = st.kill := by
  rcases processFile_inv args spec st st' file r h with
    ⟨-, hst, -⟩ | ⟨-, -, hst, -⟩ |
    ⟨-, -, ⟨-, hst, -⟩ | ⟨-, -, hst, -⟩ | ⟨-, -, -, hst, -⟩ | ⟨-, -, -, -, hst, -⟩ |
      ⟨-, -, -, l, -, hst, -⟩ | ⟨-, -, -, -, hst, -⟩⟩ <;>
    subst hst <;>
    first
      | exact ⟨rfl, rfl⟩
      | (refine ⟨?_, ?_⟩ <;> (unfold errorBranch; split <;> rfl))

/-- Once the loop has broken out, the remaining files are not touched. -/
theorem driverRun_stopped (args : Args) (env : String → FileEnv) (files : List String)
    (st : MState) (h : st.stopped = true) :
    driverRun args env files st = some st := by
  induction files with
  | nil => rfl
  | cons f fs ih =>
    simp only [driverRun, List.foldl_cons] at ih ⊢
    simpa [driverStep, h] using ih

/-- Claim C2 (counterexample): with quarantine mode disabled (no discard
flag) and a timeout budget of one unit, a worker that never exits ends
in a terminal failure (WorkerTimedOut) that nevertheless appends the
line "Timeout error: a" to the ledger, appends to the in-memory vault,
and deletes the destination directory — contradicting the claim that
with quarantine disabled no terminal-failure outcome appends to the
ledger or deletes the destination directory. -/
theorem C2_counterexample :
    argsC2.discard = false ∧
    (driverRun argsC2 envC2 ["a"] (initState argsC2 none [] [] [])).map
        (fun st => (st.errorsTxt, st.errorvault, st.dirs, st.wrong)) =
      some (["Timeout error: a"], ["a"], [], 1) := by
  exact ⟨rfl, by decide⟩

/-- Claim C2 (amended): the error-flag outcomes (AnalysisFailed and
WorkerCrashed) append a ledger entry and delete the destination
directory only when quarantine mode is enabled, and leave the ledger
untouched with the directory kept when it is disabled; WorkerTimedOut
and RunInterrupted append a ledger entry and delete the destination
directory unconditionally, whether or not quarantine mode is
enabled. -/
theorem C2_theorem (args : Args) (spec : WorkerSpec) (st st' : MState) (file : String)
    (r : IterResult) (h : processFile args spec st file = some (st', r)) :
    ((r = .analysisFailed ∨ r = .workerCrashed) →
      (args.discard = false →
        st'.errorsTxt = st.errorsTxt ∧ st'.errorvault = st.errorvault ∧
        st'.dirs.contains file = true) ∧
      (args.discard = true →
        st'.errorsTxt = st.errorsTxt ++ [file] ∧
        st'.errorvault = st.errorvault ++ [file] ∧
        st'.dirs.contains file = false)) ∧
    (r = .workerTimedOut →
      st'.errorsTxt = st.errorsTxt ++ ["Timeout error: " ++ file] ∧
      st'.errorvault = st.errorvault ++ [file] ∧
      st'.dirs.contains file = false) ∧
    (r = .runInterrupted →
      st'.errorsTxt = st.errorsTxt ++ ["Jumped: " ++ file] ∧
      st'.errorvault = st.errorvault ++ [file] ∧
      st'.dirs.contains file = false) := by
  rcases processFile_inv args spec st st' file r h with
    ⟨-, hst, hr⟩ | ⟨-, -, hst, hr⟩ | ⟨-, -, hc⟩
  · subst hst; subst hr; simp
  · subst hst; subst hr; simp
  · rcases hc with ⟨-, hst, hr⟩ | ⟨-, -, hst, hr⟩ | ⟨-, -, -, hst, hr⟩ |
      ⟨-, -, -, -, hst, hr⟩ | ⟨-, -, -, l, -, hst, hr⟩ | ⟨-, -, -, -, hst, hr⟩ <;>
      subst hst <;> subst hr
    · refine ⟨by simp, by simp, fun _ => ⟨rfl, rfl, ?_⟩⟩
      simp [interruptHandler, failureRecord, rmtree, preJob, ensureCopy, ensureDir]
    · refine ⟨by simp, fun _ => ⟨rfl, rfl, ?_⟩, by simp⟩
      simp [timeoutHandler, failureRecord, rmtree, preJob, ensureCopy, ensureDir]
    · refine ⟨fun _ => ⟨fun hd => ?_, fun hd => ?_⟩, by simp, by simp⟩
      · unfold errorBranch
        rw [if_neg (by simp [hd])]
        refine ⟨rfl, rfl, ?_⟩
        by_cases hcon : file ∈ st.dirs <;>
          simp [preJob, ensureCopy, ensureDir, hcon]
      · unfold errorBranch
        rw [if_pos hd]
        refine ⟨rfl, rfl, ?_⟩
        simp [failureRecord, rmtree, preJob, ensureCopy, ensureDir]
    · refine ⟨fun _ => ⟨fun hd => ?_, fun hd => ?_⟩, by simp, by simp⟩
      · unfold errorBranch
        rw [if_neg (by simp [hd])]
        refine ⟨rfl, rfl, ?_⟩
        by_cases hcon : file ∈ st.dirs <;>
          simp [preJob, ensureCopy, ensureDir, hcon]
      · unfold errorBranch
        rw [if_pos hd]
        refine ⟨rfl, rfl, ?_⟩
        simp [failureRecord, rmtree, preJob, ensureCopy, ensureDir]
    · simp
    · simp

/-- Claim C2 (witness): the amended statement at a concrete crashing
worker under quarantine mode: ledger line appended, vault appended,
destination directory gone. -/
theorem C2_witness :
    processFile argsC2w specC2w stC2w "a" = some (stC2w', .workerCrashed) ∧
    (stC2w'.errorsTxt = stC2w.errorsTxt ++ ["a"] ∧
     stC2w'.errorvault = stC2w.errorvault ++ ["a"] ∧
     stC2w'.dirs.contains "a" = false) := by
  refine ⟨by decide, ?_⟩
  exact ((C2_theorem argsC2w specC2w stC2w stC2w' "a" .workerCrashed (by decide)).1
    (Or.inr rfl)).2 rfl

/-- Claim C3 (counterexample): with quarantine mode off and the vault
nonempty because a timeout appended to it unconditionally, the file "a"
matches the vault entry "ab" by substring containment, yet the driver
does not skip it: a second worker is spawned, the job completes and the
success counter is incremented (spawns = 2, done = 1), where the claim
would require a skip with the failure counter incremented and no job. -/
theorem C3_counterexample :
    check_if_errored ["ab"] "a" = true ∧
    driverRun argsC3 envC3 ["ab", "a"] (initState argsC3 none [] [] []) =
      some stC3r ∧
    stC3r.spawns = 2 ∧ stC3r.done = 1 ∧ stC3r.wrong = 1 ∧
    stC3r.errorvault = ["ab"] ∧ stC3r.markers = [("a", ["k"])] := by
  exact ⟨by decide, by decide, rfl, rfl, rfl, rfl, rfl⟩

/-- Claim C3 (amended): when quarantine mode (the discard flag) is
enabled, every artifact whose identifier matches some in-memory
ErrorLedger entry by substring containment is skipped without running a
job — the only state change is the failure counter incremented by one —
and the loop continues; with quarantine mode disabled the ledger check
is bypassed entirely. -/
theorem C3_theorem (args : Args) (spec : WorkerSpec) (st : MState) (file : String)
    (hd : args.discard = true)
    (he : check_if_errored st.errorvault file = true) :
    processFile args spec st file =
      some ({ st with wrong := st.wrong + 1 }, .skippedErrored) := by
  simp [processFile, hd, he]

/-- Claim C3 (witness): the amended statement at the concrete vault
["ab"] and the queried file "a" under quarantine mode. -/
theorem C3_witness :
    argsC3w.discard = true ∧ check_if_errored stC3w.errorvault "a" = true ∧
    processFile argsC3w okSpec stC3w "a" =
      some ({ stC3w with wrong := stC3w.wrong + 1 }, .skippedErrored) :=
  ⟨rfl, by decide, C3_theorem argsC3w okSpec stC3w "a" rfl (by decide)⟩

/-- Claim C4 (confirmed): when the worker exits on its own (natural
exit within the wait window, no interrupt, no skip): a nonzero exit
status classifies the job WorkerCrashed through the error branch and
the result does not depend on the channel message at all; a zero exit
status with channel message (true, _) classifies AnalysisFailed; a zero
exit status with channel message (false, keys) classifies Completed
with those keys, writes the marker file and increments the success
counter. -/
theorem C4_theorem (args : Args) (spec : WorkerSpec) (st : MState) (file : String)
    (hskip1 : (args.discard && check_if_errored st.errorvault file) = false)
    (hskip2 : hasMarker st file = false)
    (hni : spec.interrupt = false)
    (hsup : supervise args.timeout spec.exitsAt = .naturalExit) :
    (spec.exitcode ≠ 0 →
      processFile args spec st file =
        some (errorBranch args (preJob (ensureDir st file) file) file, .workerCrashed)) ∧
    (∀ m, spec.exitcode ≠ 0 →
      processFile args { spec with msg := m } st file = processFile args spec st file) ∧
    (∀ ks, spec.exitcode = 0 → spec.msg = some (true, ks) →
      processFile args spec st file =
        some (errorBranch args (preJob (ensureDir st file) file) file, .analysisFailed)) ∧
    (∀ keys, spec.exitcode = 0 → spec.msg = some (false, some keys) →
      ∃ st', processFile args spec st file = some (st', .completedOk keys) ∧
        st'.markers = st.markers ++ [(file, keys)] ∧
        st'.done = st.done + 1 ∧ hasMarker st' file = true) := by
  have hm2 : hasMarker (ensureDir st file) file = false := by
    simpa [hasMarker, ensureDir] using hskip2
  refine ⟨fun hc => ?_, fun m hc => ?_, fun ks h0 hm => ?_, fun keys h0 hm => ?_⟩
  · simp [processFile, hskip1, hm2, hni, hsup, hc]
  · simp [processFile, hskip1, hm2, hni, hsup, hc]
  · simp [processFile, hskip1, hm2, hni, hsup, h0, hm]
  · refine ⟨{ preJob (ensureDir st file) file with
        markers := (preJob (ensureDir st file) file).markers ++ [(file, keys)]
        done := (preJob (ensureDir st file) file).done + 1 }, ?_, rfl, rfl, ?_⟩
    · simp [processFile, hskip1, hm2, hni, hsup, h0, hm]
    · simp [hasMarker]

/-- Claim C4 (witness): the three classifications at concrete workers —
status 2 with a message present is WorkerCrashed, status 0 with
(true, absent) is AnalysisFailed, status 0 with (false, keys) is
Completed with marker written and success counter incremented. -/
theorem C4_witness :
    (processFile argsC4 specC4a stC4 "a" =
      some (errorBranch argsC4 (preJob (ensureDir stC4 "a") "a") "a", .workerCrashed)) ∧
    (processFile argsC4 specC4b stC4 "a" =
      some (errorBranch argsC4 (preJob (ensureDir stC4 "a") "a") "a", .analysisFailed)) ∧
    (∃ st', processFile argsC4 specC4c stC4 "a" = some (st', .completedOk ["k1", "k2"]) ∧
      st'.markers = stC4.markers ++ [("a", ["k1", "k2"])] ∧
      st'.done = stC4.done + 1 ∧ hasMarker st' "a" = true) :=
  ⟨(C4_theorem argsC4 specC4a stC4 "a" (by decide) (by decide) rfl (by decide)).1
      (by decide),
   (C4_theorem argsC4 specC4b stC4 "a" (by decide) (by decide) rfl (by decide)).2.2.1
      none rfl rfl,
   (C4_theorem argsC4 specC4c stC4 "a" (by decide) (by decide) rfl (by decide)).2.2.2
      ["k1", "k2"] rfl rfl⟩

/-- Claim C5 (confirmed): an analyzer that raises an exception caught
inside the worker makes `sniffing` send (true, absent) on the channel;
the worker process still exits with status 0 (the target returned), so
for any natural exit within the wait window the parent reads the
channel and classifies the job AnalysisFailed — never WorkerCrashed. -/
theorem C5_theorem (args : Args) (st : MState) (file : String) (e : Nat)
    (hskip1 : (args.discard && check_if_errored st.errorvault file) = false)
    (hskip2 : hasMarker st file = false)
    (hsup : supervise args.timeout (some e) = .naturalExit) :
    (sniffing .raises).1 = (true, none) ∧
    (spawnWorker .raises e).exitcode = 0 ∧
    processFile args (spawnWorker .raises e) st file =
      some (errorBranch args (preJob (ensureDir st file) file) file, .analysisFailed) ∧
    (∀ st', processFile args (spawnWorker .raises e) st file ≠
      some (st', .workerCrashed)) := by
  have hm2 : hasMarker (ensureDir st file) file = false := by
    simpa [hasMarker, ensureDir] using hskip2
  have heq : processFile args (spawnWorker .raises e) st file =
      some (errorBranch args (preJob (ensureDir st file) file) file, .analysisFailed) := by
    simp [processFile, hskip1, hm2, spawnWorker, sniffing, hsup]
  refine ⟨rfl, rfl, heq, fun st' hc => ?_⟩
  rw [heq] at hc
  simp at hc

/-- Claim C5 (witness): the statement at a concrete worker that raises,
under quarantine mode with a five-unit budget and an exit at time 2. -/
theorem C5_witness :
    (sniffing .raises).1 = (true, none) ∧
    (spawnWorker .raises 2).exitcode = 0 ∧
    processFile argsC5 (spawnWorker .raises 2) stC5 "a" =
      some (errorBranch argsC5 (preJob (ensureDir stC5 "a") "a") "a", .analysisFailed) ∧
    (∀ st', processFile argsC5 (spawnWorker .raises 2) stC5 "a" ≠
      some (st', .workerCrashed)) :=
  C5_theorem argsC5 stC5 "a" 2 (by decide) (by decide) (by decide)

/-- Claim C6 (counterexample): the spec asserts that whenever a timeout
budget T is present and the worker does not exit within T + 3, the
supervisor waits T + 3 and then forcibly terminates the worker,
classifying WorkerTimedOut.  With the present budget T = 0 the code
takes the falsy branch of `if timeout:` and calls a plain blocking
`join()`: the wait blocks forever and no WorkerTimedOut ever arises. -/
theorem C6_counterexample :
    argsC6.timeout = some 0 ∧
    supervise argsC6.timeout hangSpec.exitsAt = .blocksForever ∧
    processFile argsC6 hangSpec (initState argsC6 none [] [] []) "a" = none := by
  exact ⟨rfl, rfl, by decide⟩

/-- Claim C6 (amended): when a present timeout budget T is nonzero and
the worker does not exit within T + 3 (grace period G = 3), the
supervisor waits exactly T + 3 for natural exit, then forcibly
terminates the worker and classifies the job WorkerTimedOut: the ledger
line is tagged "Timeout error", the failure counter is incremented, the
destination directory is removed, and the run continues; when T is
absent the wait blocks until the worker exits and never forcibly
terminates; a present budget T = 0 is treated like an absent one
(Python truthiness) and blocks indefinitely on a worker that never
exits. -/
theorem C6_theorem (args : Args) (spec : WorkerSpec) (st : MState) (file : String)
    (hskip1 : (args.discard && check_if_errored st.errorvault file) = false)
    (hskip2 : hasMarker st file = false)
    (hni : spec.interrupt = false) :
    (∀ T, args.timeout = some T → T ≠ 0 →
      (∀ e, spec.exitsAt = some e → T + 3 < e) →
      supervise args.timeout spec.exitsAt = .forcedKill (T + 3) ∧
      processFile args spec st file =
        some (timeoutHandler (preJob (ensureDir st file) file) file, .workerTimedOut) ∧
      (timeoutHandler (preJob (ensureDir st file) file) file).errorsTxt =
        st.errorsTxt ++ ["Timeout error: " ++ file] ∧
      (timeoutHandler (preJob (ensureDir st file) file) file).wrong = st.wrong + 1 ∧
      (timeoutHandler (preJob (ensureDir st file) file) file).dirs.contains file = false ∧
      (timeoutHandler (preJob (ensureDir st file) file) file).stopped = st.stopped) ∧
    (args.timeout = none →
      (∀ w, supervise args.timeout spec.exitsAt ≠ .forcedKill w) ∧
      (∀ e, spec.exitsAt = some e →
        supervise args.timeout spec.exitsAt = .naturalExit)) ∧
    (args.timeout = some 0 → spec.exitsAt = none →
      supervise args.timeout spec.exitsAt = .blocksForever ∧
      processFile args spec st file = none) := by
  have hm2 : hasMarker (ensureDir st file) file = false := by
    simpa [hasMarker, ensureDir] using hskip2
  refine ⟨fun T hT hT0 hlate => ?_, fun hT => ⟨fun w => ?_, fun e he => ?_⟩,
    fun hT he => ?_⟩
  · have hksup : supervise args.timeout spec.exitsAt = .forcedKill (T + 3) := by
      cases hex : spec.exitsAt with
      | none => simp [supervise, hT, pyTruthy, hT0]
      | some e =>
        have := hlate e hex
        simp [supervise, hT, pyTruthy, hT0, hex, Nat.not_le_of_lt this]
    refine ⟨hksup, ?_, rfl, rfl, ?_, rfl⟩
    · simp [processFile, hskip1, hm2, hni, hksup]
    · simp [timeoutHandler, failureRecord, rmtree, preJob, ensureCopy, ensureDir]
  · cases hex : spec.exitsAt <;> simp [supervise, hT, pyTruthy, hex]
  · simp [supervise, hT, pyTruthy, he]
  · have hksup : supervise args.timeout spec.exitsAt = .blocksForever := by
      simp [supervise, hT, pyTruthy, he]
    exact ⟨hksup, by simp [processFile, hskip1, hm2, hni, hksup]⟩

/-- Claim C6 (witness): the amended statement at a concrete hanging
worker and the nonzero budget T = 2: forced kill after exactly 5 units,
WorkerTimedOut with ledger tag, counter, rollback, run continuing. -/
theorem C6_witness :
    supervise argsC6w.timeout hangSpec.exitsAt = .forcedKill (2 + 3) ∧
    processFile argsC6w hangSpec stC6w "a" =
      some (timeoutHandler (preJob (ensureDir stC6w "a") "a") "a", .workerTimedOut) ∧
    (timeoutHandler (preJob (ensureDir stC6w "a") "a") "a").errorsTxt =
      stC6w.errorsTxt ++ ["Timeout error: " ++ "a"] ∧
    (timeoutHandler (preJob (ensureDir stC6w "a") "a") "a").wrong = stC6w.wrong + 1 ∧
    (timeoutHandler (preJob (ensureDir stC6w "a") "a") "a").dirs.contains "a" = false ∧
    (timeoutHandler (preJob (ensureDir stC6w "a") "a") "a").stopped = stC6w.stopped :=
  (C6_theorem argsC6w hangSpec stC6w "a" (by decide) (by decide) rfl).1
    2 rfl (by decide) (fun e he => by simp [hangSpec] at he)

/-- Stepping the loop from a resolved step folds into the rest of the
run. -/
theorem driverRun_cons (args : Args) (env : String → FileEnv) (f : String)
    (fs : List String) (st st' : MState)
    (h : driverStep args env (some st) f = some st') :
    driverRun args env (f :: fs) st = driverRun args env fs st' := by
  simp [driverRun, List.foldl_cons, h]

/-- Claim C7 (confirmed): a KeyboardInterrupt caught while waiting on
the worker of artifact f1 yields RunInterrupted for that job only — the
loop goes on and fully processes artifact f2 — whereas the KILL flag,
once set, makes the next top-of-loop check break out before any new
artifact starts; a SIGQUIT delivered during the iteration of f1 lets
that iteration apply all of its effects and stops the run just before
the next artifact. -/
theorem C7_theorem (args : Args) (env₁ env₂ env₃ : String → FileEnv)
    (st stK st₁ st₂ : MState) (f₁ f₂ : String) (r₁ r₂ : IterResult) (rest : List String)
    (hk : st.kill = false) (hs : st.stopped = false)
    (hint : (env₁ f₁).worker.interrupt = true)
    (hsq1 : (env₁ f₁).sigquit = false)
    (hsq2 : (env₁ f₂).sigquit = false)
    (hskip1 : (args.discard && check_if_errored st.errorvault f₁) = false)
    (hskip2 : hasMarker st f₁ = false)
    (h₂ : processFile args (env₁ f₂).worker
            (interruptHandler (preJob (ensureDir st f₁) f₁) f₁) f₂ = some (st₂, r₂))
    (hkK : stK.kill = true) (hsK : stK.stopped = false)
    (hsq3 : (env₃ f₁).sigquit = true)
    (h₁ : processFile args (env₃ f₁).worker st f₁ = some (st₁, r₁)) :
    (processFile args (env₁ f₁).worker st f₁ =
      some (interruptHandler (preJob (ensureDir st f₁) f₁) f₁, .runInterrupted) ∧
     driverRun args env₁ [f₁, f₂] st = some st₂) ∧
    driverStep args env₂ (some stK) f₂ = some { stK with stopped := true } ∧
    driverRun args env₃ (f₁ :: f₂ :: rest) st =
      some { st₁ with kill := true, stopped := true } := by
  have hm2 : hasMarker (ensureDir st f₁) f₁ = false := by
    simpa [hasMarker, ensureDir] using hskip2
  have pf₁ : processFile args (env₁ f₁).worker st f₁ =
      some (interruptHandler (preJob (ensureDir st f₁) f₁) f₁, .runInterrupted) := by
    simp [processFile, hskip1, hm2, hint]
  have hIkill : (interruptHandler (preJob (ensureDir st f₁) f₁) f₁).kill = false := hk
  have hIstop : (interruptHandler (preJob (ensureDir st f₁) f₁) f₁).stopped = false := hs
  have hstep1 : driverStep args env₁ (some st) f₁ =
      some (interruptHandler (preJob (ensureDir st f₁) f₁) f₁) := by
    simp [driverStep, hs, hk, pf₁, hsq1]
  have hstep2 : driverStep args env₁
      (some (interruptHandler (preJob (ensureDir st f₁) f₁) f₁)) f₂ = some st₂ := by
    simp [driverStep, hIstop, hIkill, h₂, hsq2]
  have hs₁ : st₁.stopped = false := by
    have h := processFile_stopped_kill args (env₃ f₁).worker st st₁ f₁ r₁ h₁
    rw [h.1]; exact hs
  have hstep1' : driverStep args env₃ (some st) f₁ = some { st₁ with kill := true } := by
    simp [driverStep, hs, hk, h₁, hsq3]
  have hstep2' : driverStep args env₃ (some { st₁ with kill := true }) f₂ =
      some { st₁ with kill := true, stopped := true } := by
    simp [driverStep, hs₁]
  refine ⟨⟨pf₁, ?_⟩, ?_, ?_⟩
  · rw [driverRun_cons args env₁ f₁ [f₂] st _ hstep1,
      driverRun_cons args env₁ f₂ [] _ st₂ hstep2]
    rfl
  · simp [driverStep, hsK, hkK]
  · rw [driverRun_cons args env₃ f₁ (f₂ :: rest) st _ hstep1',
      driverRun_cons args env₃ f₂ rest _ _ hstep2']
    exact driverRun_stopped args env₃ rest _ rfl

/-- Claim C7 (witness): the statement at the concrete two-file corpus
["a", "b"]: an interrupted wait on "a" still lets "b" complete; a set
KILL flag breaks before the next artifact; a SIGQUIT during the job of
"a" lets that job finish and stops before "b". -/
theorem C7_witness :
    (processFile argsC7 (envC7a "a").worker stC7 "a" =
      some (interruptHandler (preJob (ensureDir stC7 "a") "a") "a", .runInterrupted) ∧
     driverRun argsC7 envC7a ["a", "b"] stC7 = some stC7b) ∧
    driverStep argsC7 envC7b (some stC7k) "b" = some { stC7k with stopped := true } ∧
    driverRun argsC7 envC7c ["a", "b"] stC7 =
      some { stC7a with kill := true, stopped := true } :=
  C7_theorem argsC7 envC7a envC7b envC7c stC7 stC7k stC7a stC7b "a" "b"
    (.completedOk ["k"]) (.completedOk ["k"]) [] rfl rfl (by decide) (by decide)
    (by decide) (by decide) (by decide) (by decide) rfl rfl (by decide) (by decide)

/-- Claim C8 (counterexample): artifact "ample" already carries its
marker file, yet under quarantine mode with the ledger line
"Timeout error: sample.exe" (of which "ample" is a substring) the
re-run skips it at the ledger check with the failure counter — not at
the marker check with the success counter: done stays 0 and wrong
becomes 1.  Zero copies and zero spawns still hold. -/
theorem C8_counterexample :
    hasMarker stC8 "ample" = true ∧
    driverRun argsC8 envC8 ["ample"] stC8 = some stC8r ∧
    stC8r.done = 0 ∧ stC8r.wrong = 1 ∧ stC8r.spawns = 0 ∧
    stC8r.copies = stC8.copies := by
  exact ⟨by decide, by decide, rfl, rfl, rfl, by decide⟩

/-- Claim C8 (amended): re-running the driver over a corpus in which
every artifact already has its completion marker performs zero
re-copies and spawns zero workers, and every artifact is resolved by
one of the two skip checks; when quarantine mode is disabled each
artifact is skipped at the marker check with the success counter
incremented, while under quarantine mode an artifact that also matches
the error ledger is skipped earlier, at the ledger check, with the
failure counter incremented instead. -/
theorem C8_theorem (args : Args) (env : String → FileEnv) (files : List String)
    (init : MState)
    (hm : ∀ f ∈ files, hasMarker init f = true)
    (hk : init.kill = false) (hs : init.stopped = false)
    (hq : ∀ f, (env f).sigquit = false) :
    ∃ final, driverRun args env files init = some final ∧
      final.spawns = init.spawns ∧ final.copies = init.copies ∧
      final.markers = init.markers ∧
      final.done + final.wrong = init.done + init.wrong + files.length ∧
      (args.discard = false →
        final.done = init.done + files.length ∧ final.wrong = init.wrong) := by
  induction files generalizing init with
  | nil => exact ⟨init, rfl, rfl, rfl, rfl, by simp, fun _ => ⟨by simp, rfl⟩⟩
  | cons f fs ih =>
    have hmf : hasMarker init f = true := hm f (List.mem_cons_self f fs)
    by_cases hc : (args.discard && check_if_errored init.errorvault f) = true
    · have hpf : processFile args (env f).worker init f =
          some ({ init with wrong := init.wrong + 1 }, .skippedErrored) := by
        simp [processFile, hc]
      have hstep : driverStep args env (some init) f =
          some { init with wrong := init.wrong + 1 } := by
        simp [driverStep, hs, hk, hpf, hq f]
      obtain ⟨final, hrun, h1, h2, h3, h4, h5⟩ :=
        ih { init with wrong := init.wrong + 1 }
          (fun g hg => hm g (List.mem_cons_of_mem f hg)) hk hs
      refine ⟨final, ?_, h1, h2, h3, ?_, fun hd => ?_⟩
      · rw [driverRun_cons args env f fs init _ hstep]; exact hrun
      · simp only [List.length_cons] at h4 ⊢
        omega
      · rw [hd] at hc; simp at hc
    · have hc' : (args.discard && check_if_errored init.errorvault f) = false :=
        Bool.eq_false_iff.mpr hc
      have hm2 : hasMarker (ensureDir init f) f = true := by
        simpa [hasMarker, ensureDir] using hmf
      have hpf : processFile args (env f).worker init f =
          some ({ ensureDir init f with done := init.done + 1 }, .skippedDone) := by
        simp [processFile, hc', hm2]
        rfl
      have hstep : driverStep args env (some init) f =
          some { ensureDir init f with done := init.done + 1 } := by
        simp [driverStep, hs, hk, hpf, hq f]
      obtain ⟨final, hrun, h1, h2, h3, h4, h5⟩ :=
        ih { ensureDir init f with done := init.done + 1 }
          (fun g hg => hm g (List.mem_cons_of_mem f hg)) hk hs
      refine ⟨final, ?_, h1, h2, h3, ?_, fun hd => ?_⟩
      · rw [driverRun_cons args env f fs init _ hstep]; exact hrun
      · simp only [List.length_cons] at h4 ⊢
        simp [ensureDir] at h4
        omega
      · obtain ⟨hd1, hd2⟩ := h5 hd
        simp only [List.length_cons]
        simp [ensureDir] at hd1
        exact ⟨by omega, hd2⟩

/-- Claim C8 (witness): the amended statement over the concrete corpus
["x", "y"] in which both artifacts already carry markers, with
quarantine mode off: both are skipped at the marker check. -/
theorem C8_witness :
    ∃ final, driverRun argsC8w envC8w ["x", "y"] stC8w = some final ∧
      final.spawns = stC8w.spawns ∧ final.copies = stC8w.copies ∧
      final.markers = stC8w.markers ∧
      final.done + final.wrong = stC8w.done + stC8w.wrong + ["x", "y"].length ∧
      (argsC8w.discard = false →
        final.done = stC8w.done + ["x", "y"].length ∧ final.wrong = stC8w.wrong) :=
  C8_theorem argsC8w envC8w ["x", "y"] stC8w (by decide) rfl rfl (fun _ => rfl)

/-- Claim C9 (confirmed): in any finished iteration the marker file is
written only on the Completed path — a marker present afterwards was
either already there or was written by this iteration classifying
Completed — on Completed the marker for this artifact is written, and
every non-Completed path removes or keeps markers (never adds one) and
leaves the loop ready to continue with the next artifact. -/
theorem C9_theorem (args : Args) (spec : WorkerSpec) (st st' : MState) (file : String)
    (r : IterResult) (h : processFile args spec st file = some (st', r)) :
    (∀ p ∈ st'.markers, p ∈ st.markers ∨ (p.1 = file ∧ r = .completedOk p.2)) ∧
    (∀ ks, r = .completedOk ks →
      st'.markers = st.markers ++ [(file, ks)] ∧ hasMarker st' file = true) ∧
    ((∀ ks, r ≠ .completedOk ks) →
      (∀ p ∈ st'.markers, p ∈ st.markers) ∧ st'.stopped = st.stopped) := by
  rcases processFile_inv args spec st st' file r h with
    ⟨-, hst, hr⟩ | ⟨-, -, hst, hr⟩ |
    ⟨-, -, ⟨-, hst, hr⟩ | ⟨-, -, hst, hr⟩ | ⟨-, -, -, hst, hr⟩ | ⟨-, -, -, -, hst, hr⟩ |
      ⟨-, -, -, l, -, hst, hr⟩ | ⟨-, -, -, -, hst, hr⟩⟩ <;> subst hst <;> subst hr
  · exact ⟨fun p hp => Or.inl hp, by simp, fun _ => ⟨fun p hp => hp, rfl⟩⟩
  · exact ⟨fun p hp => Or.inl hp, by simp, fun _ => ⟨fun p hp => hp, rfl⟩⟩
  · exact ⟨fun p hp => Or.inl (List.mem_filter.mp hp).1, by simp,
      fun _ => ⟨fun p hp => (List.mem_filter.mp hp).1, rfl⟩⟩
  · exact ⟨fun p hp => Or.inl (List.mem_filter.mp hp).1, by simp,
      fun _ => ⟨fun p hp => (List.mem_filter.mp hp).1, rfl⟩⟩
  · have hmem : ∀ p ∈ (errorBranch args (preJob (ensureDir st file) file) file).markers,
        p ∈ st.markers := by
      unfold errorBranch; split
      · exact fun p hp => (List.mem_filter.mp hp).1
      · exact fun p hp => hp
    have hstp : (errorBranch args (preJob (ensureDir st file) file) file).stopped =
        st.stopped := by
      unfold errorBranch; split <;> rfl
    exact ⟨fun p hp => Or.inl (hmem p hp), by simp, fun _ => ⟨hmem, hstp⟩⟩
  · have hmem : ∀ p ∈ (errorBranch args (preJob (ensureDir st file) file) file).markers,
        p ∈ st.markers := by
      unfold errorBranch; split
      · exact fun p hp => (List.mem_filter.mp hp).1
      · exact fun p hp => hp
    have hstp : (errorBranch args (preJob (ensureDir st file) file) file).stopped =
        st.stopped := by
      unfold errorBranch; split <;> rfl
    exact ⟨fun p hp => Or.inl (hmem p hp), by simp, fun _ => ⟨hmem, hstp⟩⟩
  · refine ⟨?_, ?_, ?_⟩
    · intro p hp
      rcases List.mem_append.mp hp with hl | hr2
      · exact Or.inl hl
      · rw [List.mem_singleton] at hr2
        subst hr2
        exact Or.inr ⟨rfl, rfl⟩
    · intro ks hks
      cases hks
      exact ⟨rfl, by simp [hasMarker]⟩
    · intro hno
      exact absurd rfl (hno l)
  · exact ⟨fun p hp => Or.inl (List.mem_filter.mp hp).1, by simp,
      fun _ => ⟨fun p hp => (List.mem_filter.mp hp).1, rfl⟩⟩

/-- Claim C9 (witness): a concrete completed iteration: marker written
for "a", and an inspection through the theorem applied to it. -/
theorem C9_witness :
    processFile argsC9 okSpec stC9 "a" = some (stC9', .completedOk ["k"]) ∧
    stC9'.markers = stC9.markers ++ [("a", ["k"])] ∧ hasMarker stC9' "a" = true :=
  ⟨by decide,
   (C9_theorem argsC9 okSpec stC9 stC9' "a" (.completedOk ["k"]) (by decide)).2.1
     ["k"] rfl⟩

/-- Claim C10 (confirmed): every setup validation abort — unreadable
hardcode configuration file or missing output directory — exits the
process through `sys.exit()` with no argument, status 0, the same exit
status as a run that completes its loop normally; no combination of the
two failures produces a nonzero status. -/
theorem C10_theorem : ∀ hardGiven hardLoadFails outputExists : Bool,
    (setup hardGiven hardLoadFails outputExists = none ∨
      setup hardGiven hardLoadFails outputExists = some 0) ∧
    (setup true true outputExists = some 0) ∧
    (setup hardGiven hardLoadFails false = some 0) ∧
    sysExitNoArg = 0 := by
  decide
